import Mathlib

/-!
Shallow embedding of the queue admission / session-lifecycle client of this
repository: the queue API client (`src/lib/apis/queue/index.ts` and its type
declarations), the queue-driven state machine of the auth page
(`src/routes/auth/+page.svelte`), and the two session-timer components
(the recomputing variant and the decrementing variant).

JavaScript numbers that only ever hold integral millisecond timestamps,
counts and positions are modelled as `Int`.  `Math.floor(a / b)` on integral
operands with positive `b` is `Int.fdiv`.  Thrown JavaScript errors are
modelled by an explicit error value carried in `Except`.
-/

/-- Status union of the queue API type declarations:
`waiting | draft | connected | disconnected`. -/
inductive QueueStatusKind
  | waiting
  | draft
  | connected
  | disconnected
  deriving DecidableEq, Repr

/-- The `QueueStatus` interface exactly as declared in the queue API type
declarations: a `status` and a `position` member, nothing else. -/
structure QueueStatus where
  status : QueueStatusKind
  position : Int
  deriving DecidableEq, Repr

/-- Member names of the declared `QueueStatus` interface, in declaration
order. -/
def queueStatusInterfaceFields : List String := ["status", "position"]

/-- The queue-status record as the auth page actually manipulates it: its
initialiser and its template read the three properties `status`, `position`
and `estimated_time` (the declared interface omits the third). -/
structure PageQueueStatus where
  status : QueueStatusKind
  position : Int
  estimated_time : Int
  deriving DecidableEq, Repr

/-- Property names of the queue-status object the auth page initialises and
reads. -/
def authPageQueueStatusFields : List String := ["status", "position", "estimated_time"]

/-- The `QueueMetrics` interface of the queue API type declarations. -/
structure QueueMetrics where
  active_users : Int
  waiting_users : Int
  total_slots : Int
  deriving DecidableEq, Repr

/-- Timer kind of the `TimerInfo` interface: `draft | session`. -/
inductive TimerKind
  | draft
  | session
  deriving DecidableEq, Repr

/-- The `TimerInfo` interface of the queue API type declarations. -/
structure TimerInfo where
  timer_type : TimerKind
  ttl : Int
  channel : Option String
  deriving DecidableEq, Repr

/-- The `UserRequest` interface of the queue API type declarations. -/
structure UserRequest where
  user_id : String
  deriving DecidableEq, Repr

/-- Response body of `joinQueue`. -/
structure JoinResponse where
  position : Int
  deriving DecidableEq, Repr

/-- Response body of `leaveQueue` and `heartbeat`. -/
structure SuccessResponse where
  success : Bool
  deriving DecidableEq, Repr

/-- Response body of `confirmConnection`. -/
structure ConfirmResponse where
  session_duration : Int
  deriving DecidableEq, Repr

/-- Kind of a thrown JavaScript error in the client error paths: a
`TypeError` (fetch network failure), the error thrown by `response.json()`
on a body that is not valid JSON, or a plain `Error` constructed by the
client code. -/
inductive JsErrorKind
  | typeError
  | jsonError
  | plainError
  deriving DecidableEq, Repr

/-- A thrown JavaScript error: its kind and its `message`. -/
structure JsError where
  kind : JsErrorKind
  message : String
  deriving DecidableEq, Repr

/-- The `TypeError` a failed network round trip rejects with. -/
def failedToFetch : JsError := ⟨.typeError, "Failed to fetch"⟩

/-- The generic server-unavailable error constructed by `handleFetchError`. -/
def serverUnavailable : JsError := ⟨.plainError, "The server is not available"⟩

/-- `handleFetchError` from the queue API client: when the caught error is a
`TypeError` with message `Failed to fetch`, throw the generic
server-unavailable error; otherwise rethrow the caught error unchanged. -/
def handleFetchError (e : JsError) : JsError :=
  if e.kind = JsErrorKind.typeError ∧ e.message = "Failed to fetch" then
    serverUnavailable
  else
    e

/-- Outcome of one fetch call as the client observes it: the fetch itself
rejects (network failure); a 2xx response with a parsed body; a non-2xx
response whose body parsed as JSON with an optional `detail` member; or a
non-2xx response whose body is not valid JSON, in which case
`response.json()` rejects with a parse error carrying `parseMessage`. -/
inductive FetchOutcome (α : Type)
  | networkFailure
  | success (body : α)
  | httpErrorJson (detail : Option String)
  | httpErrorBadJson (parseMessage : String)
  deriving DecidableEq, Repr

/-- Error built by `new Error(error.detail)`: its message is the `detail`
string, or empty when the parsed body has no `detail` member (constructing a
JavaScript `Error` with an undefined message leaves the message empty). -/
def errorFromDetail (d : Option String) : JsError := ⟨.plainError, d.getD ""⟩

/-- Shared response handling of the operations without a try/catch wrapper
(`leaveQueue`, `confirmConnection`, `heartbeat`, `getMetrics`, `getTimers`):
on a non-2xx response the parsed `detail` is thrown via `new Error`, a JSON
parse failure or a network failure propagates as thrown. -/
def rawRequest {α : Type} (o : FetchOutcome α) : Except JsError α :=
  match o with
  | .networkFailure => .error failedToFetch
  | .success b => .ok b
  | .httpErrorJson d => .error (errorFromDetail d)
  | .httpErrorBadJson m => .error ⟨.jsonError, m⟩

/-- Response handling of `joinQueue` and `getStatus`: the same shape inside a
try/catch whose catch block routes the error through `handleFetchError`
(which either replaces it by the generic server-unavailable error or
rethrows it unchanged). -/
def wrappedRequest {α : Type} (o : FetchOutcome α) : Except JsError α :=
  match rawRequest o with
  | .ok b => .ok b
  | .error e => .error (handleFetchError e)

/-- `joinQueue`: POST join, wrapped in try/catch with `handleFetchError`. -/
def joinQueue (o : FetchOutcome JoinResponse) : Except JsError JoinResponse :=
  wrappedRequest o

/-- `leaveQueue`: POST leave, no try/catch wrapper. -/
def leaveQueue (o : FetchOutcome SuccessResponse) : Except JsError SuccessResponse :=
  rawRequest o

/-- `confirmConnection`: POST confirm, no try/catch wrapper. -/
def confirmConnection (o : FetchOutcome ConfirmResponse) : Except JsError ConfirmResponse :=
  rawRequest o

/-- `getStatus`: GET status, wrapped in try/catch with `handleFetchError`.
The auth page consumes the result as the three-property record it
initialises, hence `PageQueueStatus` here (the declared interface
`QueueStatus` omits `estimated_time`). -/
def getStatus (o : FetchOutcome PageQueueStatus) : Except JsError PageQueueStatus :=
  wrappedRequest o

/-- `heartbeat`: POST heartbeat, no try/catch wrapper. -/
def heartbeat (o : FetchOutcome SuccessResponse) : Except JsError SuccessResponse :=
  rawRequest o

/-- `getMetrics`: GET metrics, no try/catch wrapper. -/
def getMetrics (o : FetchOutcome QueueMetrics) : Except JsError QueueMetrics :=
  rawRequest o

/-- `getTimers`: GET timers, no try/catch wrapper. -/
def getTimers (o : FetchOutcome TimerInfo) : Except JsError TimerInfo :=
  rawRequest o

/-- Step-wise refresh ratio of the status poller, from the ternary chain on
`queueMetrics.waiting_users` in `refreshQueueStatus`. -/
def refreshRatio (waitingUsers : Int) : Int :=
  if waitingUsers < 100 then 100
  else if waitingUsers < 500 then 250
  else if waitingUsers < 1000 then 500
  else 1000

/-- Polling delay scheduled while waiting:
`Math.max(queueStatus.position * refreshRatio, 2500)`. -/
def pollDelay (position waitingUsers : Int) : Int :=
  max (position * refreshRatio waitingUsers) 2500

/-- Side effect selected by one iteration of `refreshQueueStatus`. -/
inductive RefreshAction
  | noAction
  | toastDraftReady
  | signUp (name email password : String)
  | propagateError (e : JsError)
  deriving DecidableEq, Repr

/-- Result of one iteration of `refreshQueueStatus`: the locally held queue
status afterwards, the side effect taken, the delay of the next scheduled
poll when one is scheduled, and whether the error path logged to the
console. -/
structure RefreshResult where
  queueStatus : PageQueueStatus
  action : RefreshAction
  nextPollDelay : Option Int
  loggedError : Bool
  deriving DecidableEq, Repr

/-- One iteration of `refreshQueueStatus` on the auth page, given the result
of the awaited `getStatus` call.  When `getStatus` rejects, the assignment to
`queueStatus` never runs (the local status keeps its previous value), the
catch blocks inside `getStatus` have logged the error, no branch runs, and in
particular no `setTimeout` is scheduled: the rejection propagates.  When it
resolves: `waiting` schedules the next poll at `pollDelay`; `draft` raises
the ready toast; `connected` sets `name` to `user-` followed by the queue id,
`email` to the queue id followed by `@example.com`, and calls
`signUpHandler`, which signs up with those and the module-level `password`
binding, initialised to `password` and never reassigned on this path;
`disconnected` matches no branch. -/
def refreshQueueStatus (queueId : String) (prev : PageQueueStatus)
    (metrics : QueueMetrics) (result : Except JsError PageQueueStatus) : RefreshResult :=
  match result with
  | .error e => ⟨prev, .propagateError e, none, true⟩
  | .ok s =>
    match s.status with
    | .waiting => ⟨s, .noAction, some (pollDelay s.position metrics.waiting_users), false⟩
    | .draft => ⟨s, .toastDraftReady, none, false⟩
    | .connected =>
        ⟨s, .signUp ("user-" ++ queueId) (queueId ++ "@example.com") "password", none, false⟩
    | .disconnected => ⟨s, .noAction, none, false⟩

/-- Initial value of the `queueStatus` binding on the auth page. -/
def initialQueueStatus : PageQueueStatus := ⟨.disconnected, -1, 0⟩

/-- `queueDisabled` as computed in the auth page `onMount`: the
`waiting_users` reported by `getMetrics` at page load compared against the
configured `max_waiting_users`. -/
def queueDisabled (waitingUsers maxWaitingUsers : Int) : Bool :=
  decide (waitingUsers ≥ maxWaitingUsers)

/-- The control the auth page renders in the queue area. -/
inductive QueueControlView
  | queueFull
  | tryButton
  | signingIn
  | waitingDisplay (position estimated_time : Int)
  | startChatting
  deriving DecidableEq, Repr

/-- The render branch of the auth page queue area: `queueDisabled` first
renders the queue-full notice, else the branch is chosen by
`queueStatus.status` (`disconnected` offers the join button, `connected`
shows the signing-in spinner, `waiting` shows position and estimated time,
`draft` offers the start-chatting confirmation button). -/
def renderQueueControl (disabled : Bool) (qs : PageQueueStatus) : QueueControlView :=
  if disabled then .queueFull
  else
    match qs.status with
    | .disconnected => .tryButton
    | .connected => .signingIn
    | .waiting => .waitingDisplay qs.position qs.estimated_time
    | .draft => .startChatting

/-- Expiry predicate `Math.floor(timeRemaining / SECOND) <= 0` shared by both
session-timer variants, with `SECOND = 1000`. -/
def sessionExpired (timeRemaining : Int) : Bool :=
  decide (Int.fdiv timeRemaining 1000 ≤ 0)

/-- Store and local state right after the recomputing session-timer
component mounts. -/
structure SessionMountState where
  endTimestamp : Int
  termsAccepted : Bool
  termsShown : Bool
  timeRemaining : Int
  signedOut : Bool
  deriving DecidableEq, Repr

/-- Mount logic of the recomputing session-timer component, with `Date.now()`
modelled as the instant `now` and the configured
`features.queue.session_duration` in seconds.  When the stored
`endTimestamp` is already in the past it is reset to
`now + session_duration * SECOND` and the terms-of-use flags are cleared;
then `timeRemaining` is computed from the (possibly reset) store value.  The
mount body contains no sign-out call, so `signedOut` is always false here. -/
def sessionOnMount2 (now sessionDuration endTimestamp : Int)
    (termsAccepted termsShown : Bool) : SessionMountState :=
  let e := if endTimestamp < now then now + sessionDuration * 1000 else endTimestamp
  let acc := if endTimestamp < now then false else termsAccepted
  let shn := if endTimestamp < now then false else termsShown
  ⟨e, acc, shn, e - now, false⟩

/-- One interval tick of the recomputing session-timer variant: it assigns
`timeRemaining = endTimestamp - Date.now()`, overwriting whatever local value
`_prevRemaining` held, and takes the expiry branch (clearInterval, sign-out,
store reset, token removal, redirect) when `sessionExpired` holds of the
recomputed value. -/
def sessionTick2 (endTimestamp now _prevRemaining : Int) : Int × Bool :=
  let timeRemaining := endTimestamp - now
  (timeRemaining, sessionExpired timeRemaining)

/-- One interval tick of the decrementing session-timer variant: it assigns
`timeRemaining -= SECOND` and takes the expiry branch when `sessionExpired`
holds of the decremented value; the absolute deadline is not consulted. -/
def sessionTick3 (timeRemaining : Int) : Int × Bool :=
  let t := timeRemaining - 1000
  (t, sessionExpired t)

/-- Floor division by 1000 is nonpositive exactly on inputs below 1000. -/
lemma fdiv_thousand_nonpos_iff (t : Int) : Int.fdiv t 1000 ≤ 0 ↔ t < 1000 := by
  rw [Int.fdiv_eq_ediv t (by norm_num)]
  omega

/-- The expiry predicate holds exactly when strictly less than one full
second remains. -/
lemma sessionExpired_eq_true_iff (t : Int) : sessionExpired t = true ↔ t < 1000 := by
  simp [sessionExpired, fdiv_thousand_nonpos_iff]

/-- C1: for the waiting-state polling delay `pollDelay` (delay equal to the
maximum of `position` times the step-wise `refreshRatio` of `waiting_users`
and the floor 2500 ms), the delay at `waiting_users = 10000`,
`position = 9000` strictly exceeds the delay at `waiting_users = 10000`,
`position = 10`, which strictly exceeds the delay at `waiting_users = 50`,
`position = 10`. -/
theorem pollDelay_monotone_scenario :
    pollDelay 9000 10000 > pollDelay 10 10000 ∧ pollDelay 10 10000 > pollDelay 10 50 := by
  decide

/-- C2 counterexample: on activation with the deadline already in the past
(endTimestamp 0, now 5000, so time remaining is negative), the recomputing
session-timer mount does not force-expire: it resets the deadline to
`now + session_duration * 1000`, clears the terms-of-use flags, computes a
fresh positive `timeRemaining`, and performs no sign-out. -/
theorem sessionOnMount2_reset_not_expire :
    sessionOnMount2 5000 900 0 true true =
      ⟨905000, false, false, 900000, false⟩ ∧ (0 : Int) - 5000 ≤ 0 := by
  decide

/-- C2 (amended): on activation with `session_expires_at` strictly in the
past, the session-timer mount extends the deadline to
`now + session_duration * 1000` and clears the terms-of-use flags; the
recomputed `timeRemaining` equals the full `session_duration * 1000`, and no
immediate sign-out happens (expiry is only triggered by later ticks). -/
theorem sessionOnMount2_past_deadline (now dur e : Int) (a s : Bool) (h : e < now) :
    (sessionOnMount2 now dur e a s).endTimestamp = now + dur * 1000 ∧
    (sessionOnMount2 now dur e a s).timeRemaining = dur * 1000 ∧
    (sessionOnMount2 now dur e a s).termsAccepted = false ∧
    (sessionOnMount2 now dur e a s).termsShown = false ∧
    (sessionOnMount2 now dur e a s).signedOut = false := by
  refine ⟨?_, ?_, ?_, ?_, ?_⟩ <;> simp [sessionOnMount2, if_pos h]

/-- C2 witness: the amended mount behaviour evaluated at the concrete
activation instant 5000 with deadline 0 and session duration 900 s. -/
theorem sessionOnMount2_past_deadline_witness :
    (0 : Int) < 5000 ∧ (sessionOnMount2 5000 900 0 true true).endTimestamp = 905000 := by
  refine ⟨by decide, ?_⟩
  have h := (sessionOnMount2_past_deadline 5000 900 0 true true (by decide)).1
  rw [h]
  norm_num

/-- C3 counterexample: with the absolute deadline at 10000 ms and the single
tick executed at 60000 ms (all earlier ticks suppressed by tab suspension),
the decrementing session-timer variant merely decrements its local counter
from 10000 to 9000 and does not take the expiry branch, although the true
remaining time 10000 - 60000 is nonpositive: the first executed tick after
the deadline does not observe a nonpositive remaining time. -/
theorem sessionTick3_misses_deadline :
    sessionTick3 10000 = (9000, false) ∧ (10000 : Int) - 60000 ≤ 0 ∧ ¬((9000 : Int) ≤ 0) := by
  decide

/-- C3 (amended): the recomputing session-timer variant recomputes
`time_remaining = session_expires_at - now` on every tick, independently of
the locally stored previous value, so its first tick executed at or after the
deadline observes a nonpositive remaining time and takes the expiry branch;
the decrementing variant in the repository instead decrements its local
counter by the tick length. -/
theorem sessionTick2_recomputes (e now p q : Int) :
    sessionTick2 e now p = sessionTick2 e now q ∧
    (sessionTick2 e now p).1 = e - now ∧
    (e ≤ now → (sessionTick2 e now p).1 ≤ 0 ∧ (sessionTick2 e now p).2 = true) := by
  refine ⟨rfl, rfl, fun h => ?_⟩
  constructor
  · show e - now ≤ 0
    omega
  · show sessionExpired (e - now) = true
    rw [sessionExpired_eq_true_iff]
    omega

/-- C3 witness: the recomputing tick evaluated at deadline 1000 ms and
current instant 5000 ms takes the expiry branch. -/
theorem sessionTick2_recomputes_witness :
    (sessionTick2 1000 5000 42).2 = true :=
  ((sessionTick2_recomputes 1000 5000 42 7).2.2 (by decide)).2

/-- C4 counterexample: when the awaited `getStatus` call fails with the
transport error, `refreshQueueStatus` leaves the locally held queue status
unchanged and the error has been logged, but no next poll is scheduled
(`nextPollDelay = none`): the poll is not retried and polling stops, contrary
to the claimed retry on the same backoff schedule. -/
theorem refreshQueueStatus_error_stops_polling :
    (refreshQueueStatus "abc123" ⟨.waiting, 3, 120⟩ ⟨1, 5, 2⟩
        (.error serverUnavailable)).nextPollDelay = none ∧
    (refreshQueueStatus "abc123" ⟨.waiting, 3, 120⟩ ⟨1, 5, 2⟩
        (.error serverUnavailable)).queueStatus = ⟨.waiting, 3, 120⟩ ∧
    (refreshQueueStatus "abc123" ⟨.waiting, 3, 120⟩ ⟨1, 5, 2⟩
        (.error serverUnavailable)).loggedError = true := by
  decide

/-- C4 (amended): on any transport error during polling, the error is logged
and the state machine does not transition (the locally held queue status is
unchanged and the error propagates), but no retry is scheduled: the iteration
yields no next poll delay, so polling stops. -/
theorem refreshQueueStatus_transport_error (qid : String) (prev : PageQueueStatus)
    (m : QueueMetrics) (e : JsError) :
    refreshQueueStatus qid prev m (.error e) = ⟨prev, .propagateError e, none, true⟩ :=
  rfl

/-- C5: the `QueueStatus` interface declared for the status operation has
only the members `status` and `position`; `estimated_time` is absent from the
declaration even though the auth page initialises and reads it as a third
property of the status record. -/
theorem queueStatus_missing_estimated_time :
    ¬ ("estimated_time" ∈ queueStatusInterfaceFields) ∧
    "estimated_time" ∈ authPageQueueStatusFields := by
  decide

/-- C6 counterexample: a non-2xx response whose body is not valid JSON makes
`joinQueue` (and likewise the unwrapped `leaveQueue`) fail with the JSON
parse error itself, which is not the generic server-unavailable error. -/
theorem joinQueue_bad_json_not_unavailable :
    joinQueue (.httpErrorBadJson "Unexpected end of JSON input") =
      .error ⟨.jsonError, "Unexpected end of JSON input"⟩ ∧
    leaveQueue (.httpErrorBadJson "Unexpected end of JSON input") =
      .error ⟨.jsonError, "Unexpected end of JSON input"⟩ ∧
    JsError.mk .jsonError "Unexpected end of JSON input" ≠ serverUnavailable := by
  refine ⟨?_, rfl, by decide⟩
  simp [joinQueue, wrappedRequest, rawRequest, handleFetchError]

/-- C6 (amended): for every queue API client operation, a non-2xx response
whose body is not valid JSON causes the operation to fail with the JSON parse
error; the generic server-unavailable condition is produced only by
`joinQueue` and `getStatus` and only for a network-level fetch failure, which
the unwrapped operations propagate as the raw `TypeError` instead. -/
theorem queue_ops_bad_json_parse_error (m : String) :
    joinQueue (.httpErrorBadJson m) = .error ⟨.jsonError, m⟩ ∧
    leaveQueue (.httpErrorBadJson m) = .error ⟨.jsonError, m⟩ ∧
    confirmConnection (.httpErrorBadJson m) = .error ⟨.jsonError, m⟩ ∧
    getStatus (.httpErrorBadJson m) = .error ⟨.jsonError, m⟩ ∧
    heartbeat (.httpErrorBadJson m) = .error ⟨.jsonError, m⟩ ∧
    getMetrics (.httpErrorBadJson m) = .error ⟨.jsonError, m⟩ ∧
    getTimers (.httpErrorBadJson m) = .error ⟨.jsonError, m⟩ ∧
    joinQueue .networkFailure = .error serverUnavailable ∧
    getStatus .networkFailure = .error serverUnavailable ∧
    leaveQueue .networkFailure = .error failedToFetch := by
  refine ⟨?_, rfl, rfl, ?_, rfl, rfl, rfl, ?_, ?_, rfl⟩ <;>
    simp [joinQueue, getStatus, wrappedRequest, rawRequest, handleFetchError,
      serverUnavailable, failedToFetch]

/-- C7: for every queue API client operation, a non-2xx response whose JSON
body carries a string `detail` member makes the operation fail with an error
whose message is exactly that `detail` string. -/
theorem queue_ops_surface_detail (d : String) :
    joinQueue (.httpErrorJson (some d)) = .error ⟨.plainError, d⟩ ∧
    leaveQueue (.httpErrorJson (some d)) = .error ⟨.plainError, d⟩ ∧
    confirmConnection (.httpErrorJson (some d)) = .error ⟨.plainError, d⟩ ∧
    getStatus (.httpErrorJson (some d)) = .error ⟨.plainError, d⟩ ∧
    heartbeat (.httpErrorJson (some d)) = .error ⟨.plainError, d⟩ ∧
    getMetrics (.httpErrorJson (some d)) = .error ⟨.plainError, d⟩ ∧
    getTimers (.httpErrorJson (some d)) = .error ⟨.plainError, d⟩ := by
  refine ⟨?_, rfl, rfl, ?_, rfl, rfl, rfl⟩ <;>
    simp [joinQueue, getStatus, wrappedRequest, rawRequest, handleFetchError,
      errorFromDetail]

/-- C8: at entry to the auth flow (initial status `disconnected`), the
queue-full notice is rendered and joining disabled exactly when the
`waiting_users` reported by metrics at page load is at least the configured
maximum, and the join button is offered exactly otherwise. -/
theorem queueDisabled_render_iff (w m : Int) :
    (queueDisabled w m = true ↔ w ≥ m) ∧
    (renderQueueControl (queueDisabled w m) initialQueueStatus = .queueFull ↔ w ≥ m) ∧
    (renderQueueControl (queueDisabled w m) initialQueueStatus = .tryButton ↔ w < m) := by
  refine ⟨by simp [queueDisabled], ?_, ?_⟩
  · by_cases h : w ≥ m
    · simp [queueDisabled, renderQueueControl, initialQueueStatus, h]
    · simp [queueDisabled, renderQueueControl, initialQueueStatus, h]
  · by_cases h : w ≥ m
    · simp only [queueDisabled, renderQueueControl, initialQueueStatus]
      rw [if_pos (by simpa using h)]
      constructor
      · intro hc
        exact absurd hc (by simp)
      · intro hlt
        omega
    · simp [queueDisabled, renderQueueControl, initialQueueStatus, h]
      omega

/-- C9: whenever the status poller observes the status `connected`, the
iteration signs up against the auth service with name `user-` followed by the
queue id, email the queue id followed by `@example.com`, and the fixed
hardcoded password `password`. -/
theorem refreshQueueStatus_connected_identity (qid : String) (prev : PageQueueStatus)
    (m : QueueMetrics) (pos est : Int) :
    (refreshQueueStatus qid prev m (.ok ⟨.connected, pos, est⟩)).action =
      .signUp ("user-" ++ qid) (qid ++ "@example.com") "password" :=
  rfl

/-- C10: the session-timer expiry predicate
`Math.floor(time_remaining / 1000) <= 0` holds exactly when strictly less
than 1000 ms remain, and it can hold while the remaining time is still
strictly positive. -/
theorem sessionExpired_iff_below_one_second :
    (∀ t : Int, sessionExpired t = true ↔ t < 1000) ∧
    (∃ t : Int, 0 < t ∧ sessionExpired t = true) :=
  ⟨fun t => sessionExpired_eq_true_iff t, ⟨999, by decide, by decide⟩⟩
